import Mathlib

/-!
Verification development for the `ada-mcp-servers` repository (TypeScript).

The repository has three executable parts:
* a Google Calendar / Gmail MCP server (`google-mcp-server`), whose handlers
  wrap remote API calls and carry a deterministic color-suggestion heuristic
  (`suggestColorId`);
* a restaurant-ordering automation driver (`ordering-scraper`), whose public
  operations are `orderFoodItem`, `browseMenu`, `getCartContents`, `clearCart`
  and `proceedToCheckout`, with an item matcher `isItemMatch` and a lazily
  initialized browser session (`initBrowser`);
* an MCP tool router and chat loop.

Below, pure computations are translated directly; effectful steps (browser
launch, navigation, remote API calls, screenshots) are modelled by outcome
oracles passed explicitly, with `Except String r` distinguishing a thrown
exception (`.error msg`) from a returned value (`.ok r`).
-/

/-! ## JavaScript string primitives

JS `String.prototype.toLowerCase`, `String.prototype.includes` and the regex
word-boundary test `/\b(w1|w2|...)\b/.match` are modelled on `List Char`.
All keyword and test strings in this repository are ASCII, for which
`Char.toLower` agrees with the JS lowercasing. -/

/-- JS `s.toLowerCase()` as a list of characters (ASCII-faithful). -/
def lowerStr (s : String) : List Char :=
  s.data.map Char.toLower

/-- `startsWithChars w t` states that `t` begins with `w` (executable). -/
def startsWithChars : List Char → List Char → Bool
  | [], _ => true
  | _ :: _, [] => false
  | a :: ws, c :: ts => a == c && startsWithChars ws ts

/-- JS `hay.includes(needle)` on character lists. -/
def containsChars : List Char → List Char → Bool
  | [], needle => startsWithChars needle []
  | c :: rest, needle => startsWithChars needle (c :: rest) || containsChars rest needle

/-- JS regex word character class `\w = [A-Za-z0-9_]`. -/
def isWordChar (c : Char) : Bool :=
  (('a' ≤ c && c ≤ 'z') || ('A' ≤ c && c ≤ 'Z') || ('0' ≤ c && c ≤ '9') || c == '_')

/-- The character right after a keyword occurrence is a boundary:
either the text ends there or the next character is not a word character. -/
def headOkB : List Char → Bool
  | [] => true
  | c :: _ => !isWordChar c

/-- The character right before a keyword occurrence is a boundary: walking the
text consumed so far, the last character seen must not be a word character
(`prev` records the wordness of the character preceding the walk, `false`
at the start of the string). -/
def lastOkAux : List Char → Bool → Bool
  | [], prev => !prev
  | c :: p, _ => lastOkAux p (isWordChar c)

/-- `wordAtHead w t`: `t` starts with the keyword `w`, followed by a boundary. -/
def wordAtHead : List Char → List Char → Bool
  | [], t => headOkB t
  | _ :: _, [] => false
  | a :: ws, c :: ts => a == c && wordAtHead ws ts

/-- Scan for an occurrence of the keyword `w` preceded by a word boundary
(`prev` is the wordness of the previous character) and followed by one. -/
def hasWordAux (w : List Char) : List Char → Bool → Bool
  | [], _ => false
  | c :: rest, prev =>
      (!prev && wordAtHead w (c :: rest)) || hasWordAux w rest (isWordChar c)

/-- JS `/\bw\b/.test(t)` for a keyword `w` made of word characters. -/
def hasWord (w t : List Char) : Bool :=
  hasWordAux w t false

/-- JS `/\b(w1|w2|...)\b/.test(t)`: some keyword occurs as a whole word. -/
def matchesAny (ws : List String) (t : List Char) : Bool :=
  ws.any fun w => hasWord w.data t

/-- JS `o || d` for an optional string `o` (`undefined` and `""` are falsy). -/
def jsOrStr (o : Option String) (d : String) : String :=
  match o with
  | some s => if s = "" then d else s
  | none => d

/-- JS truthiness filter on an optional string: `undefined` and `""` become
absent, everything else is kept. -/
def optTruthy (o : Option String) : Option String :=
  match o with
  | some s => if s = "" then none else some s
  | none => none

/-! ## Ordering driver: item matching (`ordering-scraper`, `isItemMatch`) -/

/-- `isItemMatch(itemText, searchTerm)` from the ordering driver:
lowercase both, then test bidirectional substring containment. -/
def isItemMatch (itemText searchTerm : String) : Bool :=
  let normalizedItem := lowerStr itemText
  let normalizedSearch := lowerStr searchTerm
  containsChars normalizedItem normalizedSearch ||
    containsChars normalizedSearch normalizedItem

/-- In `findAndClickItem`, the candidate text handed to `isItemMatch` is
`name || text || ""` where `name` is the `item-name` attribute and `text`
the element's text content (each possibly `null`). -/
def candidateText (name text : Option String) : String :=
  jsOrStr name (jsOrStr text "")

/-! ## Google server: color suggestion (`suggestColorId`) -/

/-- Work/professional keywords (first top-level regex). -/
def workKeywords : List String :=
  ["work", "meeting", "call", "conference", "deadline", "project", "client",
   "business", "office", "interview", "presentation", "review", "standup",
   "sprint", "team", "manager", "boss", "hr", "hrs"]

/-- Meeting-like sub-rule inside the work category. -/
def workMeetingKeywords : List String :=
  ["meeting", "call", "conference", "standup", "presentation"]

/-- Deadline-like sub-rule inside the work category. -/
def workDeadlineKeywords : List String :=
  ["deadline", "urgent", "important", "critical"]

/-- Personal/fun keywords (second top-level regex). -/
def socialKeywords : List String :=
  ["party", "social", "fun", "celebration", "birthday", "anniversary", "date",
   "romantic", "dinner", "movie", "show", "concert", "game", "gaming",
   "friends", "hangout", "drinks", "club", "bar"]

/-- Romantic sub-rule inside the social category. -/
def socialRomanticKeywords : List String :=
  ["date", "romantic", "anniversary", "valentine"]

/-- Entertainment sub-rule inside the social category. -/
def socialEntertainmentKeywords : List String :=
  ["movie", "show", "concert", "entertainment", "theater"]

/-- Health/wellness keywords (third top-level regex). -/
def healthKeywords : List String :=
  ["gym", "workout", "exercise", "fitness", "run", "running", "yoga",
   "pilates", "swim", "cycling", "doctor", "medical", "appointment",
   "therapy", "dentist", "checkup", "health", "wellness", "massage", "spa"]

/-- Medical sub-rule inside the health category. -/
def healthMedicalKeywords : List String :=
  ["doctor", "medical", "appointment", "therapy", "dentist", "checkup",
   "health"]

/-- Learning/education keywords (fourth top-level regex). -/
def learningKeywords : List String :=
  ["study", "class", "course", "lesson", "workshop", "training", "seminar",
   "lecture", "school", "university", "college", "exam", "test", "homework",
   "assignment", "learning", "education", "book", "reading"]

/-- Workshop sub-rule inside the learning category. -/
def learningWorkshopKeywords : List String :=
  ["workshop", "conference", "seminar", "training"]

/-- Travel keywords (fifth top-level regex). -/
def travelKeywords : List String :=
  ["travel", "trip", "vacation", "flight", "airport", "hotel", "booking",
   "reservation", "holiday", "getaway"]

/-- The lowercased text `suggestColorId` inspects:
`` `${summary} ${description || ''}`.toLowerCase() ``. -/
def eventText (summary : String) (description : Option String) : List Char :=
  lowerStr (summary ++ " " ++ description.getD "")

/-- `suggestColorId(summary, description?)` from the Google MCP server. -/
def suggestColorId (summary : String) (description : Option String) : String :=
  let t := eventText summary description
  if matchesAny workKeywords t then
    if matchesAny workMeetingKeywords t then "7"
    else if matchesAny workDeadlineKeywords t then "8"
    else "9"
  else if matchesAny socialKeywords t then
    if matchesAny socialRomanticKeywords t then "11"
    else if matchesAny socialEntertainmentKeywords t then "3"
    else "4"
  else if matchesAny healthKeywords t then
    if matchesAny healthMedicalKeywords t then "2"
    else "10"
  else if matchesAny learningKeywords t then
    if matchesAny learningWorkshopKeywords t then "6"
    else "5"
  else if matchesAny travelKeywords t then "7"
  else "1"

/-! ## Ordering driver: `orderFoodItem` control flow

`orderFoodItem(itemName, quantity)` runs, in order:
1. `fs.mkdir(OUT_DIR, { recursive: true })` — outside any `try`;
2. `initBrowser()` (browser launch + `page.goto` navigation) — outside any `try`;
3. a `try` block: `findAndClickItem`, then (on success) `handleOrderModal`
   (which catches all of its own errors and never throws), then
   `takeScreenshot`, then builds the result object;
4. a `catch` block: `takeScreenshot(page, "click-error")` and a result object
   with `success=false`, `found=false` and the caught error's message.

Each effectful step's outcome is an oracle field of `OrderEnv`; `.error e`
models the step throwing a JS exception with message `e`. -/

/-- Result value of `findAndClickItem` (when it returns rather than throws). -/
structure FindOut where
  success : Bool
  found : Bool
  error : Option String
  clickedElement : Option String
deriving Repr, DecidableEq

/-- The `OrderResult` interface of the ordering driver. -/
structure OrderResult where
  success : Bool
  itemName : String
  quantity : Nat
  found : Bool
  screenshot : String
  error : Option String
  clickedElement : Option String
deriving Repr, DecidableEq

/-- Outcomes of the effectful steps of one `orderFoodItem` invocation:
`mkdirErr`/`initErr` are `some msg` when the step throws, `findOut` is the
result or exception of `findAndClickItem`, `shotOut` the screenshot taken in
the `try` block, `catchShotOut` the failure screenshot taken in the `catch`
block. -/
structure OrderEnv where
  mkdirErr : Option String
  initErr : Option String
  findOut : Except String FindOut
  shotOut : Except String String
  catchShotOut : Except String String
deriving Repr

/-- The `catch` branch of `orderFoodItem`: take a failure screenshot (which
may itself throw) and return `success=false` with the error's message. -/
def orderCatch (it : String) (qty : Nat) (e : String)
    (catchShotOut : Except String String) : Except String OrderResult :=
  match catchShotOut with
  | .error e2 => .error e2
  | .ok shot =>
      .ok { success := false, itemName := it, quantity := qty, found := false,
            screenshot := shot, error := some e, clickedElement := none }

/-- `orderFoodItem` over an outcome oracle. `mkdir` and `initBrowser` run
before the `try` block, so their exceptions propagate; inside the `try`,
`findAndClickItem` or `takeScreenshot` throwing lands in the `catch` branch
(`handleOrderModal` never throws); the spread
`...(result.error && { error }), ...(result.clickedElement && { clickedElement })`
keeps those fields only when truthy. -/
def orderFoodItem (env : OrderEnv) (itemName : String) (quantity : Nat) :
    Except String OrderResult :=
  match env.mkdirErr with
  | some e => .error e
  | none =>
  match env.initErr with
  | some e => .error e
  | none =>
  match env.findOut with
  | .error e => orderCatch itemName quantity e env.catchShotOut
  | .ok res =>
      match env.shotOut with
      | .error e => orderCatch itemName quantity e env.catchShotOut
      | .ok shot =>
          .ok { success := res.success, itemName := itemName,
                quantity := quantity, found := res.found, screenshot := shot,
                error := optTruthy res.error,
                clickedElement := optTruthy res.clickedElement }

/-! ## Ordering driver: stub operations

`getCartContents`, `clearCart` and `proceedToCheckout` are pure returns (no
awaited step can throw), modelled as the JS objects they return, as
field-name/value lists. -/

/-- A JS object field value. -/
inductive JsVal where
  | vBool (b : Bool)
  | vStr (s : String)
  | vNum (n : Nat)
  | vArr (l : List String)
deriving Repr, DecidableEq

/-- Field lookup in a JS object. -/
def lookupField (o : List (String × JsVal)) (k : String) : Option JsVal :=
  (o.find? fun p => p.1 == k).map fun p => p.2

/-- The object returned by `getCartContents` (a `CartContents`:
`items`, `total`, `itemCount` — note: no `success` field). -/
def getCartContents : List (String × JsVal) :=
  [("items", .vArr ["Cart functionality not implemented yet"]),
   ("total", .vStr "0.00"),
   ("itemCount", .vNum 0)]

/-- The object returned by `clearCart`. -/
def clearCart : List (String × JsVal) :=
  [("success", .vBool false),
   ("message", .vStr "Cart clearing not implemented yet")]

/-- The object returned by `proceedToCheckout`. -/
def proceedToCheckout : List (String × JsVal) :=
  [("success", .vBool false),
   ("message", .vStr "Checkout not implemented yet"),
   ("screenshot", .vStr "no-screenshot.png")]

/-! ## Ordering driver: browser-session initialization (`initBrowser`)

`initBrowser` checks the module-level `browser` variable: if it is already
set it does nothing; otherwise it launches a browser (the assignment to
`browser` happens when the launch resolves), opens a context and page, and
navigates (`page.goto` + settle delay). A launch failure throws before the
assignment (state stays empty); a navigation failure throws after it (state
holds a session). The session state is `Option Unit`; the observable effects
are session creation and navigation. -/

/-- Effects emitted by one `initBrowser` call. -/
inductive InitEffect where
  | launch
  | navigate
deriving Repr, DecidableEq

/-- Outcome oracle for the effectful steps of one `initBrowser` call. -/
inductive InitOutcome where
  | ok
  | launchFail (msg : String)
  | gotoFail (msg : String)
deriving Repr, DecidableEq

/-- One `initBrowser` call: new state, emitted effects, thrown error (if any). -/
def initBrowser (s : Option Unit) (o : InitOutcome) :
    Option Unit × List InitEffect × Option String :=
  match s with
  | some _ => (s, [], none)
  | none =>
      match o with
      | .ok => (some (), [.launch, .navigate], none)
      | .launchFail msg => (none, [], some msg)
      | .gotoFail msg => (some (), [.launch], some msg)

/-- A sequence of public ordering operations, each of which begins with an
`initBrowser` call: threads the session state and collects all effects. -/
def runInitCalls (s : Option Unit) : List InitOutcome → Option Unit × List InitEffect
  | [] => (s, [])
  | o :: os =>
      let (s1, effs, _) := initBrowser s o
      let (s2, rest) := runInitCalls s1 os
      (s2, effs ++ rest)

/-! ## Google server: tool handlers

Each handler is modelled over outcome oracles for its awaited remote steps:
`authO : Option RemoteErr` is the outcome of `getAuth()` (`some e` = throws)
and the service call's outcome is an `Except RemoteErr payload`, where the
successful payload (the JSON text the handler serializes) is carried
opaquely. A handler returns `Except String (List String)`: `.ok texts` is
the MCP result content, `.error msg` a thrown exception escaping the
handler. -/

/-- A JS error thrown by `getAuth` or a googleapis call: its `message` and
its optional `response` object (carrying an HTTP status). -/
structure RemoteErr where
  message : String
  response : Option Nat
deriving Repr, DecidableEq

/-- The `catch` branch of `list_calendars`. Its logging line evaluates
`err?.response.data`: when the error has no `response` object this is a
property access on `undefined`, so the catch block itself throws a
`TypeError`; otherwise the handler returns the wrapped error text. -/
def listCalendarsCatch (e : RemoteErr) : Except String (List String) :=
  match e.response with
  | none => .error "TypeError: Cannot read properties of undefined (reading 'data')"
  | some _ => .ok ["Error: " ++ e.message]

/-- `list_calendars` handler: `getAuth` and the `calendarList.list` call are
both inside the `try`, so either failure reaches the `catch` branch. -/
def list_calendarsH (authO : Option RemoteErr)
    (callO : Except RemoteErr String) : Except String (List String) :=
  match authO with
  | some e => listCalendarsCatch e
  | none =>
      match callO with
      | .error e => listCalendarsCatch e
      | .ok s => .ok [s]

/-- Parsed arguments of `create_event` / `create_recurring_event`
(after zod parsing; `recurrence` is used only by the recurring variant). -/
structure CreateEventArgs where
  calendarId : String
  summary : String
  description : Option String
  location : Option String
  attendees : List String
  start : String
  endT : String
  timeZone : String
  recurrence : String
  colorId : Option String
deriving Repr, DecidableEq

/-- The colorId placed on the event:
`parsed.colorId || suggestColorId(parsed.summary, parsed.description)`. -/
def chosenColorId (supplied : Option String) (summary : String)
    (description : Option String) : String :=
  jsOrStr supplied (suggestColorId summary description)

/-- The request body handed to `calendar.events.insert`. -/
structure EventBody where
  summary : String
  startDT : String
  endDT : String
  timeZone : String
  colorId : String
  description : Option String
  location : Option String
  attendees : List String
  recurrence : Option String
deriving Repr, DecidableEq

/-- Event body built by `create_event`: colorId is auto-suggested when the
caller supplies none; `description`/`location` are added only when truthy;
`attendees` only when non-empty (an empty list and an absent field coincide
in this model). -/
def buildEventBody (a : CreateEventArgs) : EventBody :=
  { summary := a.summary, startDT := a.start, endDT := a.endT,
    timeZone := a.timeZone,
    colorId := chosenColorId a.colorId a.summary a.description,
    description := optTruthy a.description, location := optTruthy a.location,
    attendees := a.attendees, recurrence := none }

/-- Event body built by `create_recurring_event`: as `buildEventBody`, plus
`recurrence: ["RRULE:" + parsed.recurrence]`. -/
def buildRecurringEventBody (a : CreateEventArgs) : EventBody :=
  { buildEventBody a with recurrence := some ("RRULE:" ++ a.recurrence) }

/-- `create_event` handler: it has no `try`/`catch` at all, so an error from
`calendar.events.insert` (or from `getAuth`) propagates out of the handler. -/
def create_eventH (a : CreateEventArgs) (authO : Option RemoteErr)
    (insertO : EventBody → Except RemoteErr String) :
    Except String (List String) :=
  match authO with
  | some e => .error e.message
  | none =>
      match insertO (buildEventBody a) with
      | .error e => .error e.message
      | .ok s => .ok [s]

/-- `create_recurring_event` handler: `getAuth` runs before the `try`
(its errors propagate), the `events.insert` call is inside it. -/
def create_recurring_eventH (a : CreateEventArgs) (authO : Option RemoteErr)
    (insertO : EventBody → Except RemoteErr String) :
    Except String (List String) :=
  match authO with
  | some e => .error e.message
  | none =>
      match insertO (buildRecurringEventBody a) with
      | .error e => .ok ["Error creating recurring event: " ++ e.message]
      | .ok s => .ok [s]

/-! ### `list_events` upstream parameters -/

/-- Raw `list_events` arguments before zod defaults are applied. -/
structure ListEventsArgs where
  calendarId : String
  maxResults : Option Nat
  timeMin : Option String
  timeMax : Option String
  singleEvents : Option Bool
  orderBy : Option String
deriving Repr, DecidableEq

/-- Arguments after `ListEvents.parse`: zod fills the defaults
`maxResults = 10`, `singleEvents = true`, `orderBy = "startTime"`;
`timeMin`/`timeMax` have no default and stay optional. -/
structure ListEventsParsed where
  calendarId : String
  maxResults : Nat
  timeMin : Option String
  timeMax : Option String
  singleEvents : Bool
  orderBy : String
deriving Repr, DecidableEq

/-- Zod parsing of `list_events` arguments (defaults only; type checks are
carried by the Lean types). -/
def parseListEvents (a : ListEventsArgs) : ListEventsParsed :=
  { calendarId := a.calendarId, maxResults := a.maxResults.getD 10,
    timeMin := a.timeMin, timeMax := a.timeMax,
    singleEvents := a.singleEvents.getD true,
    orderBy := a.orderBy.getD "startTime" }

/-- The parameter object passed to `calendar.events.list`: a `none` field
models an absent key. -/
structure ListParams where
  calendarId : Option String
  maxResults : Option Nat
  singleEvents : Option Bool
  orderBy : Option String
  timeMin : Option String
  timeMax : Option String
deriving Repr, DecidableEq

/-- `listParams` construction in the `list_events` handler: the four base
fields are always set; `timeMin`/`timeMax` are added only under
`if (parsed.timeMin)` / `if (parsed.timeMax)` (JS truthiness, so an empty
string is also omitted). -/
def buildListParams (p : ListEventsParsed) : ListParams :=
  { calendarId := some p.calendarId, maxResults := some p.maxResults,
    singleEvents := some p.singleEvents, orderBy := some p.orderBy,
    timeMin := optTruthy p.timeMin, timeMax := optTruthy p.timeMax }

/-- `list_events` handler: `getAuth` runs before the `try` (errors
propagate); the `events.list` call is inside it and its errors are returned
as wrapped text. -/
def list_eventsH (a : ListEventsArgs) (authO : Option RemoteErr)
    (callO : ListParams → Except RemoteErr String) :
    Except String (List String) :=
  match authO with
  | some e => .error e.message
  | none =>
      match callO (buildListParams (parseListEvents a)) with
      | .error e => .ok ["Error listing events: " ++ e.message]
      | .ok s => .ok [s]

/-- `list_emails` handler: `getAuth` before the `try`, the
`users.messages.list` call inside it. -/
def list_emailsH (authO : Option RemoteErr)
    (callO : Except RemoteErr String) : Except String (List String) :=
  match authO with
  | some e => .error e.message
  | none =>
      match callO with
      | .error e => .ok ["Error listing emails: " ++ e.message]
      | .ok s => .ok [s]

/-- `get_email` handler: `getAuth` before the `try`, the
`users.messages.get` call inside it. -/
def get_emailH (authO : Option RemoteErr)
    (callO : Except RemoteErr String) : Except String (List String) :=
  match authO with
  | some e => .error e.message
  | none =>
      match callO with
      | .error e => .ok ["Error getting email: " ++ e.message]
      | .ok s => .ok [s]

/-- `send_email` handler: `getAuth` before the `try`, the
`users.messages.send` call inside it. -/
def send_emailH (authO : Option RemoteErr)
    (callO : Except RemoteErr String) : Except String (List String) :=
  match authO with
  | some e => .error e.message
  | none =>
      match callO with
      | .error e => .ok ["Error sending email: " ++ e.message]
      | .ok id => .ok ["Email sent successfully! Message ID: " ++ id]

/-- `search_emails` handler: `getAuth` before the `try`, the
`users.messages.list` call inside it. -/
def search_emailsH (authO : Option RemoteErr)
    (callO : Except RemoteErr String) : Except String (List String) :=
  match authO with
  | some e => .error e.message
  | none =>
      match callO with
      | .error e => .ok ["Error searching emails: " ++ e.message]
      | .ok s => .ok [s]

/-! ## Concrete values used in claim witnesses and counterexamples -/

/-- The eleven Google Calendar color ids. -/
def allColorIds : List String :=
  ["1", "2", "3", "4", "5", "6", "7", "8", "9", "10", "11"]

/-- Concrete `list_events` arguments with `timeMin`/`timeMax` omitted. -/
def lea0 : ListEventsArgs :=
  { calendarId := "primary", maxResults := none, timeMin := none,
    timeMax := none, singleEvents := none, orderBy := none }

/-- A concrete environment where initialization succeeds but
`findAndClickItem` throws inside the `try` block. -/
def orderEnvC1w : OrderEnv :=
  { mkdirErr := none, initErr := none,
    findOut := .error "No menu items found on the page",
    shotOut := .ok "orders/item-clicked-2.png",
    catchShotOut := .ok "orders/click-error-2.png" }

/-- The googleapis error used in the C2 counterexample and witness. -/
def rateLimitErr : RemoteErr :=
  { message := "Rate limit exceeded", response := some 429 }

/-- Concrete `create_event` arguments for C2. -/
def ceArgs : CreateEventArgs :=
  { calendarId := "primary", summary := "Team sync", description := none,
    location := none, attendees := [], start := "2026-01-05T09:00:00",
    endT := "2026-01-05T09:30:00", timeZone := "America/Los_Angeles",
    recurrence := "FREQ=WEEKLY;COUNT=10", colorId := none }

/-! ## Bridging lemmas: executable matchers vs relational specifications -/

/-- `w` occurs in `t` as a whole word: `t` splits as `p ++ w ++ q` where the
character before the occurrence (if any) and the character after it (if any)
are not word characters. -/
def OccursAsWord (w t : List Char) : Prop :=
  ∃ p q, t = p ++ w ++ q ∧ lastOkAux p false = true ∧ headOkB q = true

theorem startsWithChars_iff (w : List Char) :
    ∀ t, startsWithChars w t = true ↔ ∃ q, t = w ++ q := by
  induction w with
  | nil => intro t; simp [startsWithChars]
  | cons a ws ih =>
    intro t
    cases t with
    | nil => simp [startsWithChars]
    | cons c ts =>
      simp only [startsWithChars, Bool.and_eq_true, beq_iff_eq, ih,
        List.cons_append]
      constructor
      · rintro ⟨rfl, q, rfl⟩
        exact ⟨q, rfl⟩
      · rintro ⟨q, h⟩
        injection h with h1 h2
        subst h1
        exact ⟨rfl, q, h2⟩

theorem containsChars_iff (hay needle : List Char) :
    containsChars hay needle = true ↔ ∃ p q, hay = p ++ needle ++ q := by
  induction hay with
  | nil =>
    simp only [containsChars, startsWithChars_iff]
    constructor
    · rintro ⟨q, h⟩
      exact ⟨[], q, by simpa using h⟩
    · rintro ⟨p, q, h⟩
      rw [List.nil_eq, List.append_assoc, List.append_eq_nil] at h
      exact ⟨q, by simp [h.1, h.2]⟩
  | cons c rest ih =>
    simp only [containsChars, Bool.or_eq_true, startsWithChars_iff, ih]
    constructor
    · rintro (⟨q, hq⟩ | ⟨p, q, hpq⟩)
      · exact ⟨[], q, by simpa using hq⟩
      · exact ⟨c :: p, q, by simp [hpq]⟩
    · rintro ⟨p, q, h⟩
      cases p with
      | nil => exact Or.inl ⟨q, by simpa using h⟩
      | cons x p2 =>
        injection h with h1 h2
        exact Or.inr ⟨p2, q, h2⟩

theorem wordAtHead_iff (w : List Char) :
    ∀ t, wordAtHead w t = true ↔ ∃ q, t = w ++ q ∧ headOkB q = true := by
  induction w with
  | nil => intro t; simp [wordAtHead]
  | cons a ws ih =>
    intro t
    cases t with
    | nil => simp [wordAtHead]
    | cons c ts =>
      simp only [wordAtHead, Bool.and_eq_true, beq_iff_eq, ih,
        List.cons_append]
      constructor
      · rintro ⟨rfl, q, rfl, hq⟩
        exact ⟨q, rfl, hq⟩
      · rintro ⟨q, h, hq⟩
        injection h with h1 h2
        subst h1
        exact ⟨rfl, q, h2, hq⟩

theorem hasWordAux_iff {w : List Char} (hw : w ≠ []) :
    ∀ (t : List Char) (prev : Bool),
      hasWordAux w t prev = true ↔
        ∃ p q, t = p ++ w ++ q ∧ lastOkAux p prev = true ∧ headOkB q = true := by
  intro t
  induction t with
  | nil =>
    intro prev
    constructor
    · intro h
      simp [hasWordAux] at h
    · rintro ⟨p, q, h, -, -⟩
      rw [List.nil_eq, List.append_assoc, List.append_eq_nil] at h
      exact absurd (List.append_eq_nil.mp h.2).1 hw
  | cons c rest ih =>
    intro prev
    simp only [hasWordAux, Bool.or_eq_true, Bool.and_eq_true,
      Bool.not_eq_true', wordAtHead_iff, ih]
    constructor
    · rintro (⟨hprev, q, heq, hq⟩ | ⟨p, q, heq, hlast, hq⟩)
      · refine ⟨[], q, by simpa using heq, ?_, hq⟩
        simp [lastOkAux, hprev]
      · exact ⟨c :: p, q, by simp [heq], hlast, hq⟩
    · rintro ⟨p, q, heq, hlast, hq⟩
      cases p with
      | nil =>
        refine Or.inl ⟨?_, q, by simpa using heq, hq⟩
        simpa [lastOkAux] using hlast
      | cons x p2 =>
        injection heq with h1 h2
        subst h1
        exact Or.inr ⟨p2, q, h2, hlast, hq⟩

theorem hasWord_iff {w : List Char} (hw : w ≠ []) (t : List Char) :
    hasWord w t = true ↔ OccursAsWord w t :=
  hasWordAux_iff hw t false

theorem matchesAny_iff {ws : List String} (h : ∀ w ∈ ws, w.data ≠ [])
    (t : List Char) :
    matchesAny ws t = true ↔ ∃ w ∈ ws, OccursAsWord w.data t := by
  simp only [matchesAny, List.any_eq_true]
  constructor
  · rintro ⟨w, hm, hh⟩
    exact ⟨w, hm, (hasWord_iff (h w hm) t).mp hh⟩
  · rintro ⟨w, hm, ho⟩
    exact ⟨w, hm, (hasWord_iff (h w hm) t).mpr ho⟩

/-- `t.includes([])` is true for every `t` (the empty needle is contained in
every string), as in JS. -/
theorem containsChars_nil_right : ∀ t : List Char, containsChars t [] = true := by
  intro t
  cases t <;> simp [containsChars, startsWithChars]

/-! ## Claims -/

/-- C4: `isItemMatch` returns true iff, after lowercasing both strings, the
candidate contains the search term or the search term contains the candidate
(containment stated relationally as a three-way split); in particular
"BEC Sandwich" vs "bacon sandwich" does not match, and
"Bacon, Egg & Cheese Sandwich" vs "bacon sandwich" does not match either,
since neither lowercased string fully contains the other. -/
theorem isItemMatch_spec :
    (∀ a b : String, isItemMatch a b = true ↔
      ((∃ p q, lowerStr a = p ++ lowerStr b ++ q) ∨
       (∃ p q, lowerStr b = p ++ lowerStr a ++ q))) ∧
    isItemMatch "BEC Sandwich" "bacon sandwich" = false ∧
    isItemMatch "Bacon, Egg & Cheese Sandwich" "bacon sandwich" = false := by
  refine ⟨fun a b => ?_, by decide, by decide⟩
  simp only [isItemMatch, Bool.or_eq_true, containsChars_iff]

/-- C9: `isItemMatch` with an empty candidate text returns true for every
search term, and in `findAndClickItem` an element with neither an
`item-name` attribute nor text content yields the empty-string fallback,
which therefore matches any requested item name. -/
theorem isItemMatch_empty_candidate :
    (∀ searchTerm : String, isItemMatch "" searchTerm = true) ∧
    candidateText none none = "" ∧
    (∀ itemName : String, isItemMatch (candidateText none none) itemName = true) := by
  have hempty : ∀ s : String, isItemMatch "" s = true := by
    intro s
    have h0 : lowerStr "" = [] := rfl
    simp [isItemMatch, h0, containsChars_nil_right]
  exact ⟨hempty, rfl, fun itemName => hempty itemName⟩

/-- C6: with no colorId supplied, `suggestColorId` returns "7" for summary
"Team standup meeting", "2" for "Doctor appointment", and "1" for an empty
summary. -/
theorem suggestColorId_examples :
    suggestColorId "Team standup meeting" none = "7" ∧
    suggestColorId "Doctor appointment" none = "2" ∧
    suggestColorId "" none = "1" := by
  refine ⟨by decide, by decide, by decide⟩

/-- C3 counterexample: the claim says all three stub operations return a
result containing `success=false`, but the object returned by
`getCartContents` has no `success` field at all (its fields are `items`,
`total`, `itemCount`). -/
theorem getCart_no_success_field :
    lookupField getCartContents "success" = none := by decide

/-- C3 as amended: `clearCart` and `proceedToCheckout` return `success=false`
together with an explanatory not-implemented message (and, being pure
returns, never raise); `getCartContents` never raises but returns a
placeholder cart object (`items` holding a not-implemented notice, `total`
"0.00", `itemCount` 0) with no `success` field. -/
theorem stub_results_spec :
    lookupField clearCart "success" = some (.vBool false) ∧
    lookupField clearCart "message" =
      some (.vStr "Cart clearing not implemented yet") ∧
    lookupField proceedToCheckout "success" = some (.vBool false) ∧
    lookupField proceedToCheckout "message" =
      some (.vStr "Checkout not implemented yet") ∧
    lookupField proceedToCheckout "screenshot" =
      some (.vStr "no-screenshot.png") ∧
    lookupField getCartContents "success" = none ∧
    lookupField getCartContents "items" =
      some (.vArr ["Cart functionality not implemented yet"]) ∧
    lookupField getCartContents "total" = some (.vStr "0.00") ∧
    lookupField getCartContents "itemCount" = some (.vNum 0) := by decide

/-- C7: whenever `timeMin` (resp. `timeMax`) is omitted from a `list_events`
invocation, the parameter object passed to `calendar.events.list` contains
no `timeMin` (resp. `timeMax`) key, while `calendarId`, `maxResults`,
`singleEvents` and `orderBy` are always present. -/
theorem list_events_params_spec :
    ∀ a : ListEventsArgs,
      ((buildListParams (parseListEvents a)).calendarId.isSome = true ∧
       (buildListParams (parseListEvents a)).maxResults.isSome = true ∧
       (buildListParams (parseListEvents a)).singleEvents.isSome = true ∧
       (buildListParams (parseListEvents a)).orderBy.isSome = true) ∧
      (a.timeMin = none → (buildListParams (parseListEvents a)).timeMin = none) ∧
      (a.timeMax = none → (buildListParams (parseListEvents a)).timeMax = none) := by
  intro a
  refine ⟨⟨rfl, rfl, rfl, rfl⟩, fun h => ?_, fun h => ?_⟩
  · simp [buildListParams, parseListEvents, optTruthy, h]
  · simp [buildListParams, parseListEvents, optTruthy, h]

/-- Witness for C7 at a concrete invocation omitting both bounds. -/
theorem list_events_params_spec_witness :
    (buildListParams (parseListEvents lea0)).timeMin = none ∧
    (buildListParams (parseListEvents lea0)).timeMax = none ∧
    (buildListParams (parseListEvents lea0)).calendarId.isSome = true :=
  ⟨(list_events_params_spec lea0).2.1 rfl,
   (list_events_params_spec lea0).2.2 rfl,
   (list_events_params_spec lea0).1.1⟩

/-- After a session exists, any further `initBrowser` calls leave the state
unchanged and emit no effects. -/
theorem runInitCalls_some :
    ∀ os : List InitOutcome, runInitCalls (some ()) os = (some (), []) := by
  intro os
  induction os with
  | nil => rfl
  | cons o os ih => simp [runInitCalls, initBrowser, ih]

/-- C8: `initBrowser` is idempotent — when a browser session already exists,
a call performs no launch and no navigation and leaves the session state
unchanged — and consequently any sequence of public ordering operations
(each beginning with an `initBrowser` call, with arbitrary launch/navigation
outcomes) creates at most one browser session per process. -/
theorem initBrowser_idempotent :
    (∀ o : InitOutcome, initBrowser (some ()) o = (some (), [], none)) ∧
    (∀ outcomes : List InitOutcome,
      (runInitCalls none outcomes).2.count InitEffect.launch ≤ 1) := by
  refine ⟨fun o => rfl, fun outcomes => ?_⟩
  induction outcomes with
  | nil => simp [runInitCalls]
  | cons o os ih =>
    cases o with
    | ok =>
      simp [runInitCalls, initBrowser, runInitCalls_some]
    | launchFail msg =>
      simpa [runInitCalls, initBrowser] using ih
    | gotoFail msg =>
      simp [runInitCalls, initBrowser, runInitCalls_some]

/-- C10: `suggestColorId` is total with range inside the eleven ids "1"–"11",
and the event bodies built by `create_event` and `create_recurring_event`
carry a colorId in that range whenever the caller supplies none. -/
theorem suggestColorId_range :
    (∀ (s : String) (d : Option String), suggestColorId s d ∈ allColorIds) ∧
    (∀ a : CreateEventArgs, a.colorId = none →
      (buildEventBody a).colorId ∈ allColorIds ∧
      (buildRecurringEventBody a).colorId ∈ allColorIds) := by
  have h1 : ∀ (s : String) (d : Option String), suggestColorId s d ∈ allColorIds := by
    intro s d
    simp only [suggestColorId]
    split_ifs <;> simp [allColorIds]
  refine ⟨h1, fun a ha => ?_⟩
  have hb : (buildEventBody a).colorId = suggestColorId a.summary a.description := by
    simp [buildEventBody, chosenColorId, jsOrStr, ha]
  have hr : (buildRecurringEventBody a).colorId = (buildEventBody a).colorId := rfl
  constructor
  · rw [hb]; exact h1 _ _
  · rw [hr, hb]; exact h1 _ _

/-- Witness for C10 at concrete `create_event` arguments without a colorId. -/
theorem suggestColorId_range_witness :
    (buildEventBody
      { calendarId := "primary", summary := "Dentist checkup",
        description := none, location := none, attendees := [],
        start := "2026-01-05T09:00:00", endT := "2026-01-05T10:00:00",
        timeZone := "America/Los_Angeles", recurrence := "",
        colorId := none }).colorId ∈ allColorIds ∧
    (buildRecurringEventBody
      { calendarId := "primary", summary := "Dentist checkup",
        description := none, location := none, attendees := [],
        start := "2026-01-05T09:00:00", endT := "2026-01-05T10:00:00",
        timeZone := "America/Los_Angeles", recurrence := "",
        colorId := none }).colorId ∈ allColorIds :=
  suggestColorId_range.2
    { calendarId := "primary", summary := "Dentist checkup",
      description := none, location := none, attendees := [],
      start := "2026-01-05T09:00:00", endT := "2026-01-05T10:00:00",
      timeZone := "America/Los_Angeles", recurrence := "",
      colorId := none } rfl

/-- C5: for every summary/description whose concatenated lowercased text
contains a work-category keyword as a whole word, `suggestColorId` returns
one of {"7", "8", "9"}; the meeting-like sub-rule takes priority over the
deadline-like sub-rule, which takes priority over the default "9". -/
theorem suggestColorId_work_spec (summary : String) (description : Option String)
    (h : ∃ w ∈ workKeywords, OccursAsWord w.data (eventText summary description)) :
    (suggestColorId summary description = "7" ∨
     suggestColorId summary description = "8" ∨
     suggestColorId summary description = "9") ∧
    ((∃ w ∈ workMeetingKeywords,
        OccursAsWord w.data (eventText summary description)) →
      suggestColorId summary description = "7") ∧
    (¬(∃ w ∈ workMeetingKeywords,
        OccursAsWord w.data (eventText summary description)) →
      (∃ w ∈ workDeadlineKeywords,
        OccursAsWord w.data (eventText summary description)) →
      suggestColorId summary description = "8") ∧
    (¬(∃ w ∈ workMeetingKeywords,
        OccursAsWord w.data (eventText summary description)) →
      ¬(∃ w ∈ workDeadlineKeywords,
        OccursAsWord w.data (eventText summary description)) →
      suggestColorId summary description = "9") := by
  have hWne : ∀ w ∈ workKeywords, w.data ≠ [] := by decide
  have hMne : ∀ w ∈ workMeetingKeywords, w.data ≠ [] := by decide
  have hDne : ∀ w ∈ workDeadlineKeywords, w.data ≠ [] := by decide
  have hW : matchesAny workKeywords (eventText summary description) = true :=
    (matchesAny_iff hWne _).mpr h
  have hmain : suggestColorId summary description =
      (if matchesAny workMeetingKeywords (eventText summary description) then "7"
       else if matchesAny workDeadlineKeywords (eventText summary description)
       then "8" else "9") := by
    simp only [suggestColorId, hW, if_true]
  refine ⟨?_, ?_, ?_, ?_⟩
  · rw [hmain]
    split_ifs <;> simp
  · intro hm
    have hm2 : matchesAny workMeetingKeywords (eventText summary description) = true :=
      (matchesAny_iff hMne _).mpr hm
    rw [hmain]
    simp [hm2]
  · intro hnm hd
    have hm2 : matchesAny workMeetingKeywords (eventText summary description) = false := by
      cases hx : matchesAny workMeetingKeywords (eventText summary description)
      · rfl
      · exact absurd ((matchesAny_iff hMne _).mp hx) hnm
    have hd2 : matchesAny workDeadlineKeywords (eventText summary description) = true :=
      (matchesAny_iff hDne _).mpr hd
    rw [hmain]
    simp [hm2, hd2]
  · intro hnm hnd
    have hm2 : matchesAny workMeetingKeywords (eventText summary description) = false := by
      cases hx : matchesAny workMeetingKeywords (eventText summary description)
      · rfl
      · exact absurd ((matchesAny_iff hMne _).mp hx) hnm
    have hd2 : matchesAny workDeadlineKeywords (eventText summary description) = false := by
      cases hx : matchesAny workDeadlineKeywords (eventText summary description)
      · rfl
      · exact absurd ((matchesAny_iff hDne _).mp hx) hnd
    rw [hmain]
    simp [hm2, hd2]

/-- Witness for C5 at summary "Quarterly review call": "review" is a work
keyword and "call" a meeting-like keyword, so the suggested color is "7". -/
theorem suggestColorId_work_spec_witness :
    suggestColorId "Quarterly review call" none = "7" :=
  (suggestColorId_work_spec "Quarterly review call" none
      ⟨"review", by decide,
        ⟨"quarterly ".data, " call ".data, by decide, by decide, by decide⟩⟩).2.1
    ⟨"call", by decide,
      ⟨"quarterly review ".data, " ".data, by decide, by decide, by decide⟩⟩

/-- C1 counterexample: `fs.mkdir` and `initBrowser()` run before the
`try` block of `orderFoodItem`, so a failure during browser-session
initialization or page navigation propagates as an exception instead of
being returned as a `success=false` result — here a navigation timeout. -/
theorem orderFoodItem_init_throw :
    orderFoodItem
      { mkdirErr := none,
        initErr := some "page.goto: Timeout 30000ms exceeded",
        findOut := .ok { success := true, found := true, error := none,
                         clickedElement := none },
        shotOut := .ok "orders/item-clicked-1.png",
        catchShotOut := .ok "orders/click-error-1.png" }
      "Bacon, Egg & Cheese Sandwich" 1
      = Except.error "page.goto: Timeout 30000ms exceeded" := rfl

/-- C1 as amended: step failures inside the `try` block of `orderFoodItem`
(item search/click, screenshot) are caught at the top level — a failure
screenshot is taken and a result object with `success=false` and the
error's message is returned — provided the failure screenshot itself
succeeds; failures during output-directory creation, browser-session
initialization and page navigation occur before the `try` block and
propagate as exceptions. -/
theorem orderFoodItem_amended (env : OrderEnv) (it : String) (qty : Nat)
    (cshot : String) (h1 : env.mkdirErr = none) (h2 : env.initErr = none)
    (h3 : env.catchShotOut = .ok cshot) :
    ∃ r, orderFoodItem env it qty = Except.ok r ∧
      (∀ e, env.findOut = .error e →
        r.success = false ∧ r.found = false ∧ r.error = some e ∧
        r.screenshot = cshot) ∧
      (∀ res e, env.findOut = .ok res → env.shotOut = .error e →
        r.success = false ∧ r.found = false ∧ r.error = some e ∧
        r.screenshot = cshot) := by
  cases hf : env.findOut with
  | error e =>
    refine ⟨{ success := false, itemName := it, quantity := qty,
              found := false, screenshot := cshot, error := some e,
              clickedElement := none }, ?_, ?_, ?_⟩
    · simp [orderFoodItem, h1, h2, hf, orderCatch, h3]
    · intro e2 he2
      injection he2 with h
      subst h
      exact ⟨rfl, rfl, rfl, rfl⟩
    · intro res e2 hres hshot
      exact absurd hres (by simp)
  | ok res =>
    cases hs : env.shotOut with
    | error e =>
      refine ⟨{ success := false, itemName := it, quantity := qty,
                found := false, screenshot := cshot, error := some e,
                clickedElement := none }, ?_, ?_, ?_⟩
      · simp [orderFoodItem, h1, h2, hf, hs, orderCatch, h3]
      · intro e2 he2
        exact absurd he2 (by simp)
      · intro res2 e2 hres2 hshot2
        injection hshot2 with h
        subst h
        exact ⟨rfl, rfl, rfl, rfl⟩
    | ok shot =>
      refine ⟨{ success := res.success, itemName := it, quantity := qty,
                found := res.found, screenshot := shot,
                error := optTruthy res.error,
                clickedElement := optTruthy res.clickedElement }, ?_, ?_, ?_⟩
      · simp [orderFoodItem, h1, h2, hf, hs]
      · intro e2 he2
        exact absurd he2 (by simp)
      · intro res2 e2 hres2 hshot2
        exact absurd hshot2 (by simp)

/-- Witness for the amended C1: with initialization succeeding and the
search step throwing, `orderFoodItem` returns (does not throw) a
`success=false` result carrying the failure screenshot. -/
theorem orderFoodItem_amended_witness :
    ∃ r, orderFoodItem orderEnvC1w "coffee" 1 = Except.ok r ∧
      (∀ e, orderEnvC1w.findOut = .error e →
        r.success = false ∧ r.found = false ∧ r.error = some e ∧
        r.screenshot = "orders/click-error-2.png") ∧
      (∀ res e, orderEnvC1w.findOut = .ok res →
        orderEnvC1w.shotOut = .error e →
        r.success = false ∧ r.found = false ∧ r.error = some e ∧
        r.screenshot = "orders/click-error-2.png") :=
  orderFoodItem_amended orderEnvC1w "coffee" 1 "orders/click-error-2.png"
    rfl rfl rfl

/-- C2 counterexample: the `create_event` handler has no `try`/`catch`, so
an error raised by `calendar.events.insert` propagates out of the handler
instead of being returned as text-wrapped content. -/
theorem create_event_propagates :
    create_eventH ceArgs none (fun _ => .error rateLimitErr) =
      Except.error "Rate limit exceeded" := rfl

/-- C2 as amended: every wrapper operation except `create_event` catches an
error raised by its remote service call inside the handler and returns it
as a text-wrapped error description instead of re-raising — for
`list_calendars` provided the thrown error exposes a `response` object
(otherwise its catch-block logging line itself throws); `create_event` has
no handler-level catch, so its remote-call errors propagate. -/
theorem wrappers_catch_remote_errors (e : RemoteErr) (st : Nat)
    (hresp : e.response = some st) (a : CreateEventArgs)
    (la : ListEventsArgs) :
    list_calendarsH none (.error e) = .ok ["Error: " ++ e.message] ∧
    create_recurring_eventH a none (fun _ => .error e) =
      .ok ["Error creating recurring event: " ++ e.message] ∧
    list_eventsH la none (fun _ => .error e) =
      .ok ["Error listing events: " ++ e.message] ∧
    list_emailsH none (.error e) = .ok ["Error listing emails: " ++ e.message] ∧
    get_emailH none (.error e) = .ok ["Error getting email: " ++ e.message] ∧
    send_emailH none (.error e) = .ok ["Error sending email: " ++ e.message] ∧
    search_emailsH none (.error e) =
      .ok ["Error searching emails: " ++ e.message] := by
  refine ⟨?_, rfl, rfl, rfl, rfl, rfl, rfl⟩
  simp [list_calendarsH, listCalendarsCatch, hresp]

/-- Witness for the amended C2 at a concrete googleapis error carrying a
`response` object. -/
theorem wrappers_catch_remote_errors_witness :
    list_calendarsH none (.error rateLimitErr) =
      .ok ["Error: " ++ rateLimitErr.message] ∧
    create_recurring_eventH ceArgs none (fun _ => .error rateLimitErr) =
      .ok ["Error creating recurring event: " ++ rateLimitErr.message] ∧
    list_eventsH lea0 none (fun _ => .error rateLimitErr) =
      .ok ["Error listing events: " ++ rateLimitErr.message] :=
  ⟨(wrappers_catch_remote_errors rateLimitErr 429 rfl ceArgs lea0).1,
   (wrappers_catch_remote_errors rateLimitErr 429 rfl ceArgs lea0).2.1,
   (wrappers_catch_remote_errors rateLimitErr 429 rfl ceArgs lea0).2.2.1⟩
